import Mathlib

/-!
Shallow embedding of the EnForHoldet session-tracking core.

Sources embedded:
- `src/hooks/useLocationTracking.ts` and `src/unnamed/part_000`
  (the `useLocationTracking` hook: `calculateDistance`, `startTracking`,
  `handleLocationUpdate`, `stopTracking`, `loadActiveSession`);
- `src/unnamed/part_004` (the `storageService` over AsyncStorage);
- `src/unnamed/part_001` (the background task's per-fix update);
- `src/types/tracking.ts` (`LocationPoint`, `TrackingSession`, `Category`,
  and the summary screen's `onSubmit`).

JavaScript doubles are modelled as real numbers; epoch-millisecond
timestamps as integers; TypeScript optional fields as `Option`;
AsyncStorage as a record with one field per storage key.
-/

namespace EnForHoldet

/-- Type `Category` from `src/types/tracking.ts`. -/
inductive Category where
  | mixed | plastic | metal | glass | paper | other
  deriving DecidableEq, Repr

/-- Structure `LocationPoint` from `src/types/tracking.ts`: one raw positional fix.
Optional TS fields become `Option`. -/
structure LocationPoint where
  latitude : ℝ
  longitude : ℝ
  timestamp : ℤ
  accuracy : Option ℝ
  altitude : Option ℝ
  speed : Option ℝ

/-- Structure `TrackingSession` from `src/types/tracking.ts`. -/
structure TrackingSession where
  id : String
  name : Option String
  startTime : ℤ
  endTime : Option ℤ
  locations : List LocationPoint
  distance : Option ℝ
  duration : Option ℤ
  totalWeightG : Option ℤ
  foundCategories : Option (List Category)

/-- JavaScript `Math.atan2 y x` over the reals (no signed zero or NaN). -/
noncomputable def atan2 (y x : ℝ) : ℝ :=
  if 0 < x then Real.arctan (y / x)
  else if x < 0 then
    (if 0 ≤ y then Real.arctan (y / x) + Real.pi
     else Real.arctan (y / x) - Real.pi)
  else
    (if 0 < y then Real.pi / 2
     else if y < 0 then -(Real.pi / 2)
     else 0)

/-- Function `calculateDistance` (haversine) from `src/hooks/useLocationTracking.ts`
lines 13-29 (identical copies in `src/unnamed/part_000` and
`src/unnamed/part_001`). -/
noncomputable def calculateDistance (point1 point2 : LocationPoint) : ℝ :=
  let R : ℝ := 6371000
  let lat1Rad := point1.latitude * Real.pi / 180
  let lat2Rad := point2.latitude * Real.pi / 180
  let deltaLatRad := (point2.latitude - point1.latitude) * Real.pi / 180
  let deltaLonRad := (point2.longitude - point1.longitude) * Real.pi / 180
  let a :=
    Real.sin (deltaLatRad / 2) * Real.sin (deltaLatRad / 2) +
      Real.cos lat1Rad * Real.cos lat2Rad *
        Real.sin (deltaLonRad / 2) * Real.sin (deltaLonRad / 2)
  let c := 2 * atan2 (Real.sqrt a) (Real.sqrt (1 - a))
  R * c

lemma arctan_nonneg_of_nonneg {t : ℝ} (ht : 0 ≤ t) : 0 ≤ Real.arctan t := by
  simpa [Real.arctan_zero] using Real.arctan_strictMono.monotone ht

lemma atan2_nonneg {y x : ℝ} (hy : 0 ≤ y) : 0 ≤ atan2 y x := by
  unfold atan2
  by_cases hx : 0 < x
  · rw [if_pos hx]
    exact arctan_nonneg_of_nonneg (div_nonneg hy hx.le)
  · rw [if_neg hx]
    by_cases hx' : x < 0
    · rw [if_pos hx', if_pos hy]
      have h1 : -(Real.pi / 2) < Real.arctan (y / x) := Real.neg_pi_div_two_lt_arctan _
      have h2 : 0 < Real.pi := Real.pi_pos
      linarith
    · rw [if_neg hx']
      by_cases hy' : 0 < y
      · rw [if_pos hy']
        positivity
      · rw [if_neg hy', if_neg (not_lt.mpr hy)]

lemma atan2_zero_one : atan2 0 1 = 0 := by
  unfold atan2
  rw [if_pos one_pos]
  simp [Real.arctan_zero]

/-! ## Storage (`src/unnamed/part_004`)

AsyncStorage is modelled as one record with a field per key:
`sessions` for `@tracking_sessions`, `current` for
`@current_tracking_session`. -/

/-- The durable key-value store behind `storageService`. -/
structure Store where
  sessions : List TrackingSession
  current : Option TrackingSession

namespace storageService

/-- Model of `storageService.saveSession`: appends to the stored sessions list
(`[...sessions, session]`). -/
def saveSession (session : TrackingSession) (st : Store) : Store :=
  { st with sessions := st.sessions ++ [session] }

/-- Model of `storageService.getSessions`. -/
def getSessions (st : Store) : List TrackingSession :=
  st.sessions

/-- Model of `storageService.getSession`: `sessions.find(s => s.id === id) || null`. -/
def getSession (i : String) (st : Store) : Option TrackingSession :=
  (getSessions st).find? (fun s => s.id == i)

/-- Model of `storageService.deleteSession`: `sessions.filter(s => s.id !== id)`. -/
def deleteSession (i : String) (st : Store) : Store :=
  { st with sessions := (getSessions st).filter (fun s => s.id != i) }

/-- Model of `storageService.saveCurrentSession`: sets the key when given a session,
removes it when given `null`. -/
def saveCurrentSession (session : Option TrackingSession) (st : Store) : Store :=
  { st with current := session }

/-- Model of `storageService.getCurrentSession`. -/
def getCurrentSession (st : Store) : Option TrackingSession :=
  st.current

end storageService

/-! ## The tracking hook (`src/unnamed/part_000`, `src/hooks/useLocationTracking.ts`)

React component state plus the store. Permission requests, the location
subscription object and thrown platform exceptions are outside the model:
we embed the happy-path state transitions, with `Date.now()` passed in as
`now`. -/

/-- The hook's React state (`isTracking`, `currentSession`, `error`)
together with the durable store it writes through to. -/
structure AppState where
  store : Store
  isTracking : Bool
  currentSession : Option TrackingSession
  error : Option String

/-- The id string `` `session_${Date.now()}` ``. -/
def mkSessionId (now : ℤ) : String :=
  "session_" ++ toString now

/-- The fresh session built by `startTracking` (lines 137-142 of
`src/unnamed/part_000`): empty locations, no distance/duration yet. -/
def freshSession (now : ℤ) : TrackingSession :=
  { id := mkSessionId now, name := none, startTime := now, endTime := none,
    locations := [], distance := none, duration := none,
    totalWeightG := none, foundCategories := none }

/-- Happy path of `startTracking` (permission granted): clears `error`, installs a fresh
session, sets `isTracking`. It performs no store write and does not check
whether a session is already active. -/
def startTracking (now : ℤ) (st : AppState) : AppState :=
  { st with error := none,
            currentSession := some (freshSession now),
            isTracking := true }

/-- Default used for the in-bounds index accesses of the distance loop. -/
def dummyPoint : LocationPoint :=
  { latitude := 0, longitude := 0, timestamp := 0,
    accuracy := none, altitude := none, speed := none }

/-- The distance recomputation loop of `handleLocationUpdate`
(`src/unnamed/part_000` lines 103-112, identical in
`src/hooks/useLocationTracking.ts` and `src/unnamed/part_001`):
`for (i = 1; i < len; i++) total += calculateDistance(locs[i-1], locs[i])`,
guarded by `len > 1`. -/
noncomputable def totalDistance (updatedLocations : List LocationPoint) : ℝ :=
  if 1 < updatedLocations.length then
    (List.range' 1 (updatedLocations.length - 1)).foldl
      (fun total i =>
        total + calculateDistance (updatedLocations.getD (i - 1) dummyPoint)
                                  (updatedLocations.getD i dummyPoint))
      0
  else 0

/-- The `some prev` branch of `handleLocationUpdate`: append the fix,
recompute the distance from scratch, refresh the duration. -/
noncomputable def updateSession (now : ℤ) (pt : LocationPoint)
    (prev : TrackingSession) : TrackingSession :=
  let updatedLocations := prev.locations ++ [pt]
  { prev with locations := updatedLocations,
              distance := some (totalDistance updatedLocations),
              duration := some (now - prev.startTime) }

/-- The session created by `handleLocationUpdate` when no session exists
(`src/unnamed/part_000` lines 88-96, same shape in `src/unnamed/part_001`
lines 73-82): it contains the delivered fix. -/
def newSessionFromFix (now : ℤ) (pt : LocationPoint) : TrackingSession :=
  { id := mkSessionId now, name := none, startTime := now, endTime := none,
    locations := [pt], distance := some 0, duration := some 0,
    totalWeightG := none, foundCategories := none }

/-- Ingest handler `handleLocationUpdate` (`src/unnamed/part_000` lines 76-126): ingest one
fix; creates a session when none exists, otherwise appends and recomputes;
write-through persists the result as the active record either way. -/
noncomputable def handleLocationUpdate (now : ℤ) (pt : LocationPoint)
    (st : AppState) : AppState :=
  match st.currentSession with
  | none =>
      let newSession := newSessionFromFix now pt
      { st with currentSession := some newSession,
                store := storageService.saveCurrentSession (some newSession) st.store }
  | some prev =>
      let updatedSession := updateSession now pt prev
      { st with currentSession := some updatedSession,
                store := storageService.saveCurrentSession (some updatedSession) st.store }

/-- One durable write issued by the hook, in program order. -/
inductive StoreOp where
  | saveSession : TrackingSession → StoreOp
  | saveCurrentSession : Option TrackingSession → StoreOp

/-- Execute one write against the store. -/
def applyOp (st : Store) : StoreOp → Store
  | .saveSession s => storageService.saveSession s st
  | .saveCurrentSession o => storageService.saveCurrentSession o st

/-- The finalized session built by `stopTracking`
(`src/unnamed/part_000` lines 202-206): `endTime = now`, duration frozen. -/
def finalizeSession (now : ℤ) (s : TrackingSession) : TrackingSession :=
  { s with endTime := some now, duration := some (now - s.startTime) }

/-- The awaited store writes of `stopTracking`, in program order:
`saveSession(finalSession)` then `saveCurrentSession(null)` when a session
is active, nothing when idle. -/
def stopTrackingOps (now : ℤ) (st : AppState) : List StoreOp :=
  match st.currentSession with
  | some s => [StoreOp.saveSession (finalizeSession now s),
               StoreOp.saveCurrentSession none]
  | none => []

/-- Stop handler `stopTracking` (`src/unnamed/part_000` lines 186-221): runs its store
writes in order, then clears the in-memory session (only when one was
active) and ends tracking. No `NotActive`-style failure path exists. -/
def stopTracking (now : ℤ) (st : AppState) : AppState :=
  let store' := (stopTrackingOps now st).foldl applyOp st.store
  match st.currentSession with
  | some _ => { st with store := store', currentSession := none, isTracking := false }
  | none => { st with store := store', isTracking := false }

/-- Recovery handler `loadActiveSession` (`src/unnamed/part_000` lines 225-269, recovery on
mount): reads the active record; when present adopts it and resumes
tracking; performs no store write. -/
def loadActiveSession (st : AppState) : AppState :=
  match storageService.getCurrentSession st.store with
  | some activeSession =>
      { st with currentSession := some activeSession, isTracking := true }
  | none => st

/-- Spec-side reference: the sum of `calculateDistance` over consecutive
pairs of the locations list, defined independently of the code's loop. -/
noncomputable def pairwiseDistanceSum : List LocationPoint → ℝ
  | [] => 0
  | [_] => 0
  | p :: q :: rest => calculateDistance p q + pairwiseDistanceSum (q :: rest)

/-! ## Raw readings (`expo-location` `LocationObject`)

`coords.accuracy/altitude/speed` are `number | null`; the hook converts
them with `value || undefined`. -/

/-- The fields of an expo `LocationObject` the hook reads. -/
structure RawLocation where
  latitude : ℝ
  longitude : ℝ
  timestamp : ℤ
  accuracy : Option ℝ
  altitude : Option ℝ
  speed : Option ℝ

/-- JavaScript `v || undefined` on a `number | null`: `null` and falsy
numbers map to `undefined`. Over the reals the only falsy number is `0`
(doubles additionally have `-0` and `NaN`, which collapse here). -/
noncomputable def orUndefined (v : Option ℝ) : Option ℝ :=
  match v with
  | none => none
  | some x => if x = 0 then none else some x

/-- The `LocationPoint` literal built by the location callbacks
(`src/hooks/useLocationTracking.ts` lines 73-80, `src/unnamed/part_000`
lines 77-84, `src/unnamed/part_001` lines 37-44). -/
noncomputable def toLocationPoint (location : RawLocation) : LocationPoint :=
  { latitude := location.latitude,
    longitude := location.longitude,
    timestamp := location.timestamp,
    accuracy := orUndefined location.accuracy,
    altitude := orUndefined location.altitude,
    speed := orUndefined location.speed }

/-! ## Summary form submission (`src/types/tracking.ts` third segment,
`onSubmit` of the session-summary screen, lines 322-360). -/

/-- The validated form data (`totalWeightKg`, `foundCategories`). Weight is
entered in kilograms; rationals model the finite decimals the form parses. -/
structure SummaryFormData where
  totalWeightKg : ℚ
  foundCategories : List Category

/-- JavaScript `Math.round`: half rounds toward positive infinity. -/
def roundJS (x : ℚ) : ℤ :=
  Int.floor (x + 1 / 2)

/-- Submission handler `onSubmit` of the summary screen: builds the updated session
(`endTime: session.endTime || Date.now()`, weight converted kg → g,
categories replaced), calls `storageService.saveSession` (an append), then
clears the active record if it holds the same id. -/
def onSubmit (now : ℤ) (session : TrackingSession) (data : SummaryFormData)
    (st : Store) : Store :=
  let totalWeightG := roundJS (data.totalWeightKg * 1000)
  let updatedSession : TrackingSession :=
    { session with
        endTime := match session.endTime with
                   | some e => if e = 0 then some now else some e
                   | none => some now,
        totalWeightG := some totalWeightG,
        foundCategories := some data.foundCategories }
  let st1 := storageService.saveSession updatedSession st
  match storageService.getCurrentSession st1 with
  | some cur => if cur.id == session.id then storageService.saveCurrentSession none st1 else st1
  | none => st1

/-! ## Theorems -/

lemma foldl_add_eq_sum {α : Type} (g : α → ℝ) :
    ∀ (xs : List α) (acc : ℝ),
      xs.foldl (fun total i => total + g i) acc = acc + (xs.map g).sum
  | [], acc => by simp
  | x :: xs, acc => by
      rw [List.foldl_cons, foldl_add_eq_sum g xs (acc + g x), List.map_cons,
        List.sum_cons]
      ring

lemma map_range'_sum_eq_pairwise :
    ∀ (l : List LocationPoint) (p : LocationPoint),
      ((List.range' 1 l.length).map (fun i =>
          calculateDistance ((p :: l).getD (i - 1) dummyPoint)
                            ((p :: l).getD i dummyPoint))).sum
        = pairwiseDistanceSum (p :: l)
  | [], p => by simp [pairwiseDistanceSum]
  | q :: t, p => by
      rw [List.length_cons, List.range'_succ, List.map_cons, List.sum_cons]
      have hshift : List.range' 2 t.length
          = (List.range' 1 t.length).map (fun i => 1 + i) := by
        rw [List.map_add_range']
      rw [hshift, List.map_map]
      have hcong : (List.range' 1 t.length).map
            ((fun i => calculateDistance ((p :: q :: t).getD (i - 1) dummyPoint)
                ((p :: q :: t).getD i dummyPoint)) ∘ (fun i => 1 + i))
          = (List.range' 1 t.length).map (fun i =>
              calculateDistance ((q :: t).getD (i - 1) dummyPoint)
                ((q :: t).getD i dummyPoint)) := by
        apply List.map_congr_left
        intro i hi
        have h1 : 1 ≤ i := (List.mem_range'_1.mp hi).1
        obtain ⟨j, rfl⟩ : ∃ j, i = j + 1 :=
          ⟨i - 1, (Nat.succ_pred_eq_of_pos h1).symm⟩
        have e1 : 1 + (j + 1) - 1 = j + 1 := by omega
        have e2 : 1 + (j + 1) = j + 1 + 1 := by omega
        simp only [Function.comp, e1, e2, List.getD_cons_succ, Nat.add_sub_cancel]
      rw [hcong, map_range'_sum_eq_pairwise t q]
      simp [pairwiseDistanceSum, List.getD_cons_zero, List.getD_cons_succ]

lemma totalDistance_eq_pairwise (l : List LocationPoint) :
    totalDistance l = pairwiseDistanceSum l := by
  unfold totalDistance
  match l with
  | [] => simp [pairwiseDistanceSum]
  | [p] => simp [pairwiseDistanceSum]
  | p :: q :: t =>
      rw [if_pos (by simp only [List.length_cons]; omega)]
      rw [foldl_add_eq_sum, zero_add]
      have hlen : (p :: q :: t).length - 1 = (q :: t).length := by
        simp [List.length_cons]
      rw [hlen, map_range'_sum_eq_pairwise (q :: t) p]

/-- C8: for every pair of fixes, `calculateDistance` is non-negative and
symmetric, and returns `0` whenever the two fixes share latitude and
longitude, regardless of their timestamp, accuracy, altitude and speed
fields. -/
theorem C8_distance_nonneg_symm_zero :
    (∀ a b : LocationPoint, 0 ≤ calculateDistance a b) ∧
    (∀ a b : LocationPoint, calculateDistance a b = calculateDistance b a) ∧
    (∀ (lat lon : ℝ) (t1 t2 : ℤ) (ac1 al1 sp1 ac2 al2 sp2 : Option ℝ),
      calculateDistance ⟨lat, lon, t1, ac1, al1, sp1⟩ ⟨lat, lon, t2, ac2, al2, sp2⟩ = 0) := by
  refine ⟨?_, ?_, ?_⟩
  · intro a b
    unfold calculateDistance
    exact mul_nonneg (by norm_num)
      (mul_nonneg (by norm_num) (atan2_nonneg (Real.sqrt_nonneg _)))
  · intro a b
    unfold calculateDistance
    dsimp only []
    have e1 : (a.latitude - b.latitude) * Real.pi / 180 / 2
        = -((b.latitude - a.latitude) * Real.pi / 180 / 2) := by ring
    have e2 : (a.longitude - b.longitude) * Real.pi / 180 / 2
        = -((b.longitude - a.longitude) * Real.pi / 180 / 2) := by ring
    rw [e1, e2]
    simp only [Real.sin_neg]
    ring_nf
  · intro lat lon t1 t2 ac1 al1 sp1 ac2 al2 sp2
    unfold calculateDistance
    simp [sub_self, Real.sin_zero, Real.sqrt_zero, Real.sqrt_one, atan2_zero_one]

/-! ### Concrete fixtures for counterexamples and witnesses -/

/-- A fix at the origin. -/
def pt0 : LocationPoint :=
  { latitude := 0, longitude := 0, timestamp := 0,
    accuracy := none, altitude := none, speed := none }

/-- The empty store. -/
def emptyStore : Store := { sessions := [], current := none }

/-- Cold-start state: nothing stored, nothing active. -/
def idleState : AppState :=
  { store := emptyStore, isTracking := false, currentSession := none, error := none }

/-- A raw reading whose accuracy, altitude and speed are all exactly `0`. -/
def rawZero : RawLocation :=
  { latitude := 1, longitude := 2, timestamp := 3,
    accuracy := some 0, altitude := some 0, speed := some 0 }

/-- A completed session with id `"a"` and no summary. -/
def sessA1 : TrackingSession :=
  { id := "a", name := none, startTime := 1, endTime := some 4,
    locations := [], distance := none, duration := some 3,
    totalWeightG := none, foundCategories := none }

/-- A completed session with id `"b"`. -/
def sessB : TrackingSession := { sessA1 with id := "b", startTime := 2 }

/-- A second completed session that duplicates id `"a"`. -/
def sessA2 : TrackingSession := { sessA1 with startTime := 3 }

/-- A store holding two sessions with id `"a"` around one with id `"b"`. -/
def storeC10 : Store := { sessions := [sessA1, sessB, sessA2], current := none }

/-- A just-stopped session with id `"s1"` and no summary. -/
def sessS1 : TrackingSession :=
  { id := "s1", name := none, startTime := 1, endTime := some 10,
    locations := [], distance := none, duration := some 9,
    totalWeightG := none, foundCategories := none }

/-- Store right after `stopTracking` saved `sessS1`. -/
def storeS1 : Store := { sessions := [sessS1], current := none }

/-- First summary submission: 2.5 kg, plastic and glass. -/
def formData1 : SummaryFormData :=
  { totalWeightKg := 5 / 2, foundCategories := [Category.plastic, Category.glass] }

/-- Second summary submission with different values: 3 kg, metal. -/
def formData2 : SummaryFormData :=
  { totalWeightKg := 3, foundCategories := [Category.metal] }

/-- An app state with an active session and an empty store. -/
def activeApp : AppState :=
  { store := emptyStore, isTracking := true,
    currentSession := some (freshSession 1000), error := none }

/-- C1: after every ingest into an active session, the stored locations
array is the previous array with the new fix appended, and the session's
`distance` field equals the sum of `calculateDistance` over consecutive
pairs of that array in arrival order, computed independently. Over the
real-number model the equality is exact, hence within 1e-6 relative
tolerance. -/
theorem C1_ingest_distance_invariant (now : ℤ) (pt : LocationPoint)
    (prev : TrackingSession) :
    (updateSession now pt prev).locations = prev.locations ++ [pt] ∧
    (updateSession now pt prev).distance
      = some (pairwiseDistanceSum (updateSession now pt prev).locations) := by
  refine ⟨rfl, ?_⟩
  show some (totalDistance (prev.locations ++ [pt])) = _
  rw [totalDistance_eq_pairwise]
  rfl

/-- C2 counterexample: a fix delivered with no current session is not a
no-op — `handleLocationUpdate` creates a brand-new session containing the
fix and writes it to the store's active record. -/
theorem C2_counterexample :
    idleState.currentSession = none ∧
    (handleLocationUpdate 7 pt0 idleState).currentSession
        = some (newSessionFromFix 7 pt0) ∧
    (newSessionFromFix 7 pt0).locations = [pt0] ∧
    (handleLocationUpdate 7 pt0 idleState).store.current
        = some (newSessionFromFix 7 pt0) :=
  ⟨rfl, rfl, rfl, rfl⟩

/-- C2 (amended): for every fix delivered while no session exists, the
handler creates a new session whose locations hold exactly that fix, with
distance 0 and duration 0, and persists it as the active record — the fix
is recorded rather than dropped. -/
theorem C2_no_session_creates (now : ℤ) (pt : LocationPoint) (st : AppState)
    (h : st.currentSession = none) :
    (handleLocationUpdate now pt st).currentSession
        = some (newSessionFromFix now pt) ∧
    (handleLocationUpdate now pt st).store
        = storageService.saveCurrentSession (some (newSessionFromFix now pt)) st.store ∧
    (newSessionFromFix now pt).locations = [pt] ∧
    (newSessionFromFix now pt).distance = some 0 := by
  unfold handleLocationUpdate
  rw [h]
  exact ⟨rfl, rfl, rfl, rfl⟩

/-- C2 witness: the amended statement at `now = 7`, `pt0`, cold start. -/
theorem C2_no_session_creates_witness :
    idleState.currentSession = none ∧
    ((handleLocationUpdate 7 pt0 idleState).currentSession
        = some (newSessionFromFix 7 pt0) ∧
     (handleLocationUpdate 7 pt0 idleState).store
        = storageService.saveCurrentSession (some (newSessionFromFix 7 pt0)) idleState.store ∧
     (newSessionFromFix 7 pt0).locations = [pt0] ∧
     (newSessionFromFix 7 pt0).distance = some 0) :=
  ⟨rfl, C2_no_session_creates 7 pt0 idleState rfl⟩

/-- C3 counterexample: a second `startTracking` without an intervening stop
does not fail — it replaces the active session with a fresh one (different
start time), and the error field stays `none`. -/
theorem C3_counterexample :
    (startTracking 2000 (startTracking 1000 idleState)).currentSession
        ≠ (startTracking 1000 idleState).currentSession ∧
    (startTracking 2000 (startTracking 1000 idleState)).error = none := by
  constructor
  · intro h
    have h2 : freshSession 2000 = freshSession 1000 := Option.some.inj h
    have h3 : (freshSession 2000).startTime = (freshSession 1000).startTime := by
      rw [h2]
    simp only [freshSession] at h3
    norm_num at h3
  · rfl

/-- C3 (amended): `startTracking` never fails on an already-active state; it
unconditionally installs a fresh empty session (discarding the previous
in-memory aggregate), sets tracking, clears the error, and performs no
store write. -/
theorem C3_start_replaces_active (now : ℤ) (st : AppState) :
    (startTracking now st).currentSession = some (freshSession now) ∧
    (startTracking now st).error = none ∧
    (startTracking now st).isTracking = true ∧
    (startTracking now st).store = st.store :=
  ⟨rfl, rfl, rfl, rfl⟩

/-- C4: for every active session, `stopTracking` issues exactly the two
store writes `saveSession(finalized)` then `saveCurrentSession(null)`, in
that order; afterwards the active record is `null`, the in-memory session
is cleared, and the completed list is the old list with the finalized
session appended. -/
theorem C4_stop_appends_then_clears (now : ℤ) (st : AppState)
    (s : TrackingSession) (h : st.currentSession = some s) :
    stopTrackingOps now st
        = [StoreOp.saveSession (finalizeSession now s),
           StoreOp.saveCurrentSession none] ∧
    (stopTracking now st).currentSession = none ∧
    (stopTracking now st).store.current = none ∧
    (stopTracking now st).store.sessions
        = st.store.sessions ++ [finalizeSession now s] := by
  unfold stopTracking stopTrackingOps
  rw [h]
  exact ⟨rfl, rfl, rfl, rfl⟩

/-- C4 witness: stopping `activeApp` at `now = 5000`. -/
theorem C4_stop_appends_then_clears_witness :
    activeApp.currentSession = some (freshSession 1000) ∧
    (stopTrackingOps 5000 activeApp
        = [StoreOp.saveSession (finalizeSession 5000 (freshSession 1000)),
           StoreOp.saveCurrentSession none] ∧
     (stopTracking 5000 activeApp).currentSession = none ∧
     (stopTracking 5000 activeApp).store.current = none ∧
     (stopTracking 5000 activeApp).store.sessions
        = activeApp.store.sessions ++ [finalizeSession 5000 (freshSession 1000)]) :=
  ⟨rfl, C4_stop_appends_then_clears 5000 activeApp (freshSession 1000) rfl⟩

lemma loadActiveSession_store_eq (st : AppState) :
    (loadActiveSession st).store = st.store := by
  unfold loadActiveSession
  cases h : storageService.getCurrentSession st.store
  · rfl
  · rfl

/-- C6: recovery is idempotent and read-only — `loadActiveSession` never
writes the store, and running it twice in a row yields exactly the state
(hence the same adopted aggregate) of running it once. -/
theorem C6_recover_idempotent (st : AppState) :
    (loadActiveSession st).store = st.store ∧
    loadActiveSession (loadActiveSession st) = loadActiveSession st := by
  refine ⟨loadActiveSession_store_eq st, ?_⟩
  cases h : st.store.current with
  | none =>
      have h1 : loadActiveSession st = st := by
        unfold loadActiveSession storageService.getCurrentSession
        rw [h]
      rw [h1]
      exact h1
  | some s =>
      have h1 : loadActiveSession st
          = { st with currentSession := some s, isTracking := true } := by
        unfold loadActiveSession storageService.getCurrentSession
        rw [h]
      have h2 : loadActiveSession
            { st with currentSession := some s, isTracking := true }
          = { st with currentSession := some s, isTracking := true } := by
        unfold loadActiveSession storageService.getCurrentSession
        dsimp only
        rw [h]
      rw [h1, h2]

/-- C7 counterexample: calling `stopTracking` on the idle state raises no
`NotActive` failure — the error field stays `none` (the store is indeed
left unchanged). -/
theorem C7_counterexample :
    (stopTracking 5 idleState).error = none ∧
    (stopTracking 5 idleState).store = idleState.store :=
  ⟨rfl, rfl⟩

/-- C7 (amended): for every idle state, `stopTracking` is a silent no-op on
the store: it issues no store write, leaves the store and the error field
unchanged, and the session stays absent; no `NotActive` error exists in the
code. -/
theorem C7_stop_idle_silent_noop (now : ℤ) (st : AppState)
    (h : st.currentSession = none) :
    stopTrackingOps now st = [] ∧
    (stopTracking now st).store = st.store ∧
    (stopTracking now st).error = st.error ∧
    (stopTracking now st).currentSession = none := by
  unfold stopTracking stopTrackingOps
  rw [h]
  exact ⟨rfl, rfl, rfl, rfl⟩

/-- C7 witness: the amended statement at `now = 9` on the cold-start
state. -/
theorem C7_stop_idle_silent_noop_witness :
    idleState.currentSession = none ∧
    (stopTrackingOps 9 idleState = [] ∧
     (stopTracking 9 idleState).store = idleState.store ∧
     (stopTracking 9 idleState).error = idleState.error ∧
     (stopTracking 9 idleState).currentSession = none) :=
  ⟨rfl, C7_stop_idle_silent_noop 9 idleState rfl⟩

/-- C9: the callbacks convert raw readings with `value || undefined`, so a
field that is exactly `0` (genuine zero accuracy, altitude or speed) is
stored as absent rather than `0`. -/
theorem C9_zero_fields_dropped :
    (∀ location : RawLocation, location.accuracy = some 0 →
        (toLocationPoint location).accuracy = none) ∧
    (∀ location : RawLocation, location.altitude = some 0 →
        (toLocationPoint location).altitude = none) ∧
    (∀ location : RawLocation, location.speed = some 0 →
        (toLocationPoint location).speed = none) := by
  refine ⟨?_, ?_, ?_⟩ <;> intro location h <;>
    simp [toLocationPoint, orUndefined, h]

/-- C9 witness: a reading with accuracy, altitude, speed all exactly `0`
loses all three fields. -/
theorem C9_zero_fields_dropped_witness :
    rawZero.accuracy = some 0 ∧ rawZero.altitude = some 0 ∧
    rawZero.speed = some 0 ∧
    (toLocationPoint rawZero).accuracy = none ∧
    (toLocationPoint rawZero).altitude = none ∧
    (toLocationPoint rawZero).speed = none :=
  ⟨rfl, rfl, rfl,
    C9_zero_fields_dropped.1 rawZero rfl,
    C9_zero_fields_dropped.2.1 rawZero rfl,
    C9_zero_fields_dropped.2.2 rawZero rfl⟩

/-- C10: `deleteSession id` removes every stored session whose id equals
`id` (duplicates included), keeps every other session in the same relative
order (the result is a sublist of the original), and does not touch the
active-session record. -/
theorem C10_delete_removes_all_by_id (i : String) (st : Store) :
    (storageService.deleteSession i st).sessions.Sublist st.sessions ∧
    (∀ s ∈ (storageService.deleteSession i st).sessions, s.id ≠ i) ∧
    (∀ s ∈ st.sessions, s.id ≠ i →
        s ∈ (storageService.deleteSession i st).sessions) ∧
    (storageService.deleteSession i st).current = st.current := by
  refine ⟨List.filter_sublist _, ?_, ?_, rfl⟩
  · intro s hs
    have hmem := List.of_mem_filter hs
    simpa using hmem
  · intro s hs hne
    exact List.mem_filter.mpr ⟨hs, by simpa using hne⟩

/-- C10 witness: deleting id `"a"` from a store with two `"a"` records
around one `"b"` record keeps the `"b"` record and the active slot. -/
theorem C10_delete_removes_all_by_id_witness :
    sessB ∈ storeC10.sessions ∧ sessB.id ≠ "a" ∧
    sessB ∈ (storageService.deleteSession "a" storeC10).sessions ∧
    (storageService.deleteSession "a" storeC10).current = storeC10.current := by
  refine ⟨List.Mem.tail _ (List.Mem.head _), by decide, ?_, ?_⟩
  · exact (C10_delete_removes_all_by_id "a" storeC10).2.2.1 sessB
      (List.Mem.tail _ (List.Mem.head _)) (by decide)
  · exact (C10_delete_removes_all_by_id "a" storeC10).2.2.2

/-- C5 (code bug): re-invoking the summary submission appends instead of
overwriting. Starting from a store holding the just-stopped `sessS1` and
submitting the summary form twice leaves three records with id `"s1"` in
the completed list, and `getSession "s1"` still returns the original
record without any summary. -/
theorem C5_resubmit_duplicates_eval :
    storageService.getSession "s1" storeS1 = some sessS1 ∧
    ((onSubmit 200 sessS1 formData2
        (onSubmit 100 sessS1 formData1 storeS1)).sessions.countP
          (fun s => s.id == "s1")) = 3 ∧
    storageService.getSession "s1"
        (onSubmit 200 sessS1 formData2 (onSubmit 100 sessS1 formData1 storeS1))
      = some sessS1 ∧
    sessS1.totalWeightG = none ∧ sessS1.foundCategories = none :=
  ⟨rfl, rfl, rfl, rfl, rfl⟩

end EnForHoldet
